import Mathlib

/-
Formal model of the constant-product exchange program in
src/programs/d-storage-app/src/lib.rs (module flexible_token_exchange).

Modelling conventions.

* u64 and u16 quantities are modelled as Nat.  Every u64 arithmetic step of
  the source is modelled checked: an addition, subtraction or multiplication
  whose exact result does not fit u64 aborts the operation with the
  arithmetic fault Abort.overflow, and a division by zero aborts with
  Abort.divByZero (a Rust division by zero panics unconditionally).  The
  crate source builds its arithmetic from plain operators whose
  wrap-versus-panic behaviour on overflow is fixed by the build profile,
  which is not part of src/; the error-handling design (spec section 7 and
  section 9) mandates checked arithmetic that aborts the operation, and that
  is what is modelled here.  On every path on which no abort occurs the
  model computes the exact integer values of the source expressions, so all
  success-path theorems below are independent of that choice.

* The Anchor account plumbing (pubkeys, vaults, CPI transfers, events,
  timestamps, bump seeds) moves assets around but never feeds back into the
  pool arithmetic; the model keeps only the pool fields that the instruction
  logic reads or writes, models the caller identity and the recorded pool
  authority as Nat, and treats the external transfer collaborator as
  infallible.  An operation returns Except Abort on the new pool state; an
  error result means the pool record is left untouched, which is exactly the
  all-or-nothing behaviour of a failed Solana instruction.

* The genesis LP mint (lib.rs line 63 and line 99) is computed by the source
  in IEEE double precision: (a as f64 * b as f64).sqrt() as u64.  That f64
  data path is modelled exactly over Nat: converting a u64 to f64 rounds the
  integer to 53 significant bits (round to nearest, ties to even), f64
  multiplication rounds the exact product of the two converted values the
  same way, f64 square root is the correctly rounded (nearest, ties to even)
  square root of the rounded product, and the closing u64 cast truncates
  toward zero and saturates at the u64 range, as Rust float-to-int casts do.
  Every value reaching this path is a nonnegative integer far below the f64
  overflow threshold and no subnormals can occur, so the integer functions
  rnd53, f64_sqrt_trunc and f64_geo_mean below reproduce the double
  precision computation bit for bit.
-/

inductive ExchangeError
  | SlippageExceeded
  | InsufficientLiquidity
  | InvalidTokenMint
  | PoolNotInitialized
  | Unauthorized
  | InvalidFeeRate
  deriving DecidableEq

/-- Outcome of an aborted instruction: either one of the declared program
errors of lib.rs, or an arithmetic fault (overflow / underflow of a checked
u64 operation, or an integer division by zero, both of which panic and
abort the transaction rather than returning a declared error). -/
inductive Abort
  | err : ExchangeError → Abort
  | overflow
  | divByZero
  deriving DecidableEq

/-- One less than 2 to the 64: the largest u64 value. -/
def U64 : Nat := 2 ^ 64

/-- The LiquidityPool account of lib.rs.  The pubkey reference fields
(token_mint, token_vault, sol_vault, lp_mint) and created_at are opaque
handles never read by the instruction arithmetic and are elided; the
recorded pool_authority is kept as an abstract Nat identity because
update_pool_fee compares the caller against it. -/
structure LiquidityPool where
  token_reserve : Nat
  sol_reserve : Nat
  lp_supply : Nat
  fee_rate : Nat
  pool_authority : Nat
  is_initialized : Bool
  deriving DecidableEq

/-- Round a nonnegative integer to 53 significant binary digits, nearest,
ties to even: the exact value of the f64 obtained from a u64 (or from the
product of two integer-valued f64 numbers) in this size range. -/
def rnd53 (n : Nat) : Nat :=
  if n < 2 ^ 53 then n
  else
    let s := Nat.log 2 n - 52
    let q := n / 2 ^ s
    let r := n % 2 ^ s
    if r < 2 ^ (s - 1) then q * 2 ^ s
    else if 2 ^ (s - 1) < r then (q + 1) * 2 ^ s
    else if q % 2 = 0 then q * 2 ^ s else (q + 1) * 2 ^ s

/-- Floor of the correctly rounded (nearest, ties to even) double precision
square root of the integer x.  The true square root lies in the binade
[2 ^ j, 2 ^ (j + 1)) with j = log2 x / 2; the representable doubles there
are the integer multiples of 2 ^ (j - 52), so the rounded square root is
the nearest such multiple, decided by comparing 4 * x against the square of
twice-the-candidate-plus-one, and the final truncation keeps its integer
part. -/
def f64_sqrt_trunc (x : Nat) : Nat :=
  if x = 0 then 0
  else
    let j := Nat.log 2 x / 2
    if j ≤ 52 then
      let d := 52 - j
      let q0 := Nat.sqrt (x * 4 ^ d)
      let q :=
        if 4 * (x * 4 ^ d) < (2 * q0 + 1) ^ 2 then q0
        else if (2 * q0 + 1) ^ 2 < 4 * (x * 4 ^ d) then q0 + 1
        else if q0 % 2 = 0 then q0 else q0 + 1
      q / 2 ^ d
    else
      let e := j - 52
      let q0 := Nat.sqrt x / 2 ^ e
      let q :=
        if 4 * x < (2 * q0 + 1) ^ 2 * 4 ^ e then q0
        else if (2 * q0 + 1) ^ 2 * 4 ^ e < 4 * x then q0 + 1
        else if q0 % 2 = 0 then q0 else q0 + 1
      q * 2 ^ e

/-- The geometric-mean LP mint of lib.rs lines 63 and 99:
(a as f64 * b as f64).sqrt() as u64, with the saturating Rust cast. -/
def f64_geo_mean (a b : Nat) : Nat :=
  min (f64_sqrt_trunc (rnd53 (rnd53 a * rnd53 b))) (U64 - 1)

/-- initialize_pool (lib.rs lines 14 to 67): records the reserves as given,
records the fee rate with no bound check, and mints the f64 geometric mean
of the two initial amounts as the genesis LP supply.  Duplicate-pool
prevention is the Anchor account-init constraint, outside the instruction
body. -/
def initialize_pool (t b fee auth : Nat) : LiquidityPool :=
  { token_reserve := t
    sol_reserve := b
    lp_supply := f64_geo_mean t b
    fee_rate := fee
    pool_authority := auth
    is_initialized := true }

/-- The quote part of add_liquidity (lib.rs lines 78 to 105): optimal
amounts from the current ratio, each leg clamped by min, then the LP mint,
with every u64 multiplication checked and every division checked for a zero
divisor, in source evaluation order.  Returns (final_token, final_sol,
lp_tokens). -/
def add_liquidity_quote (p : LiquidityPool) (ta sa : Nat) :
    Except Abort (Nat × Nat × Nat) :=
  if p.token_reserve ≠ 0 ∧ U64 ≤ ta * p.sol_reserve then .error .overflow
  else
    let opt_sol := if p.token_reserve = 0 then sa
                   else ta * p.sol_reserve / p.token_reserve
    if p.sol_reserve ≠ 0 ∧ U64 ≤ sa * p.token_reserve then .error .overflow
    else
      let opt_tok := if p.sol_reserve = 0 then ta
                     else sa * p.token_reserve / p.sol_reserve
      let ft := min ta opt_tok
      let fs := min sa opt_sol
      if p.lp_supply = 0 then .ok (ft, fs, f64_geo_mean ft fs)
      else if U64 ≤ ft * p.lp_supply then .error .overflow
      else if p.token_reserve = 0 then .error .divByZero
      else if U64 ≤ fs * p.lp_supply then .error .overflow
      else if p.sol_reserve = 0 then .error .divByZero
      else .ok (ft, fs, min (ft * p.lp_supply / p.token_reserve)
                            (fs * p.lp_supply / p.sol_reserve))

/-- add_liquidity (lib.rs lines 70 to 143): quote, slippage gate, then the
three checked reserve updates. -/
def add_liquidity (p : LiquidityPool) (ta sa minlp : Nat) :
    Except Abort (LiquidityPool × Nat) :=
  match add_liquidity_quote p ta sa with
  | .error e => .error e
  | .ok (ft, fs, lp) =>
    if lp < minlp then .error (.err .SlippageExceeded)
    else if U64 ≤ p.token_reserve + ft then .error .overflow
    else if U64 ≤ p.sol_reserve + fs then .error .overflow
    else if U64 ≤ p.lp_supply + lp then .error .overflow
    else .ok ({ p with token_reserve := p.token_reserve + ft
                       sol_reserve := p.sol_reserve + fs
                       lp_supply := p.lp_supply + lp }, lp)

/-- The quote part of swap_token_to_sol (lib.rs lines 157 to 161): the u64
subtraction 10000 - fee_rate, the fee multiplication, the constant-product
numerator and denominator, and the closing division, each checked, in
source evaluation order. -/
def swap_t2s_quote (p : LiquidityPool) (a : Nat) : Except Abort Nat :=
  if 10000 < p.fee_rate then .error .overflow
  else if U64 ≤ a * (10000 - p.fee_rate) then .error .overflow
  else
    let eff := a * (10000 - p.fee_rate) / 10000
    if U64 ≤ p.sol_reserve * eff then .error .overflow
    else if U64 ≤ p.token_reserve + eff then .error .overflow
    else if p.token_reserve + eff = 0 then .error .divByZero
    else .ok (p.sol_reserve * eff / (p.token_reserve + eff))

/-- swap_token_to_sol (lib.rs lines 146 to 206): quote, slippage gate,
drain gate, then the reserve updates; the subtraction from sol_reserve
cannot underflow because the drain gate has established out < sol_reserve,
so only the token_reserve addition needs an overflow check. -/
def swap_token_to_sol (p : LiquidityPool) (a m : Nat) :
    Except Abort (LiquidityPool × Nat) :=
  match swap_t2s_quote p a with
  | .error e => .error e
  | .ok out =>
    if out < m then .error (.err .SlippageExceeded)
    else if p.sol_reserve ≤ out then .error (.err .InsufficientLiquidity)
    else if U64 ≤ p.token_reserve + a then .error .overflow
    else .ok ({ p with token_reserve := p.token_reserve + a
                       sol_reserve := p.sol_reserve - out }, out)

/-- The quote part of swap_sol_to_token (lib.rs lines 221 to 225), the
mirror image of swap_t2s_quote. -/
def swap_s2t_quote (p : LiquidityPool) (a : Nat) : Except Abort Nat :=
  if 10000 < p.fee_rate then .error .overflow
  else if U64 ≤ a * (10000 - p.fee_rate) then .error .overflow
  else
    let eff := a * (10000 - p.fee_rate) / 10000
    if U64 ≤ p.token_reserve * eff then .error .overflow
    else if U64 ≤ p.sol_reserve + eff then .error .overflow
    else if p.sol_reserve + eff = 0 then .error .divByZero
    else .ok (p.token_reserve * eff / (p.sol_reserve + eff))

/-- swap_sol_to_token (lib.rs lines 209 to 270): quote, slippage gate,
drain gate, then the reserve updates in source order (sol_reserve grows,
token_reserve shrinks; the subtraction is covered by the drain gate). -/
def swap_sol_to_token (p : LiquidityPool) (a m : Nat) :
    Except Abort (LiquidityPool × Nat) :=
  match swap_s2t_quote p a with
  | .error e => .error e
  | .ok out =>
    if out < m then .error (.err .SlippageExceeded)
    else if p.token_reserve ≤ out then .error (.err .InsufficientLiquidity)
    else if U64 ≤ p.sol_reserve + a then .error .overflow
    else .ok ({ p with sol_reserve := p.sol_reserve + a
                       token_reserve := p.token_reserve - out }, out)

/-- The payout computation of remove_liquidity (lib.rs lines 286 to 287):
two checked multiplications and two divisions by lp_supply, which carries no
zero guard in the source, in evaluation order. -/
def remove_quote (p : LiquidityPool) (l : Nat) : Except Abort (Nat × Nat) :=
  if U64 ≤ p.token_reserve * l then .error .overflow
  else if p.lp_supply = 0 then .error .divByZero
  else if U64 ≤ p.sol_reserve * l then .error .overflow
  else .ok (p.token_reserve * l / p.lp_supply, p.sol_reserve * l / p.lp_supply)

/-- remove_liquidity (lib.rs lines 273 to 330): payouts, the two slippage
gates, then the three checked subtractions; the source never checks that
the redeemed lp_tokens are at most lp_supply, so each subtraction can
genuinely underflow and is modelled checked. -/
def remove_liquidity (p : LiquidityPool) (l mt ms : Nat) :
    Except Abort (LiquidityPool × Nat × Nat) :=
  match remove_quote p l with
  | .error e => .error e
  | .ok (ot, os) =>
    if ot < mt then .error (.err .SlippageExceeded)
    else if os < ms then .error (.err .SlippageExceeded)
    else if p.token_reserve < ot then .error .overflow
    else if p.sol_reserve < os then .error .overflow
    else if p.lp_supply < l then .error .overflow
    else .ok ({ p with token_reserve := p.token_reserve - ot
                       sol_reserve := p.sol_reserve - os
                       lp_supply := p.lp_supply - l }, ot, os)

/-- update_pool_fee (lib.rs lines 333 to 351) together with the Anchor
constraint of UpdatePoolFee (lib.rs lines 596 to 599): the authority
comparison is an account constraint and therefore runs before the
instruction body reaches its fee-bound require. -/
def update_pool_fee (p : LiquidityPool) (caller new_fee : Nat) :
    Except Abort LiquidityPool :=
  if caller = p.pool_authority then
    if new_fee ≤ 1000 then .ok { p with fee_rate := new_fee }
    else .error (.err .InvalidFeeRate)
  else .error (.err .Unauthorized)

/-- Optimal sol leg of add_liquidity as the spec states it. -/
def spec_optimal_sol (p : LiquidityPool) (ta sa : Nat) : Nat :=
  if p.token_reserve = 0 then sa else ta * p.sol_reserve / p.token_reserve

/-- Optimal token leg of add_liquidity as the spec states it. -/
def spec_optimal_token (p : LiquidityPool) (ta sa : Nat) : Nat :=
  if p.sol_reserve = 0 then ta else sa * p.token_reserve / p.sol_reserve

/-- Clamped token deposit of add_liquidity as the spec states it. -/
def spec_final_token (p : LiquidityPool) (ta sa : Nat) : Nat :=
  min ta (spec_optimal_token p ta sa)

/-- Clamped sol deposit of add_liquidity as the spec states it. -/
def spec_final_sol (p : LiquidityPool) (ta sa : Nat) : Nat :=
  min sa (spec_optimal_sol p ta sa)

/-- Fee-reduced input of a swap as the spec states it. -/
def spec_effective_in (fee amount_in : Nat) : Nat :=
  amount_in * (10000 - fee) / 10000

/-- Constant-product quote of a swap as the spec states it. -/
def spec_amount_out (reserve_in reserve_out eff : Nat) : Nat :=
  reserve_out * eff / (reserve_in + eff)

/-- Pool of the concrete swap scenario in the spec (section 8). -/
def pool_c2 : LiquidityPool := ⟨1000000, 1000000, 1000000, 30, 0, true⟩

/-- A completely empty pool. -/
def pool_fresh : LiquidityPool := ⟨0, 0, 0, 30, 0, true⟩

/-- A pool with nonzero reserves but zero LP supply. -/
def pool_zero_lp : LiquidityPool := ⟨5, 5, 0, 30, 0, true⟩

/-- A small balanced pool with circulating LP supply. -/
def pool_small : LiquidityPool := ⟨1000, 1000, 100, 30, 0, true⟩

/-- A pool whose token reserve is empty. -/
def pool_drained_t : LiquidityPool := ⟨0, 10, 1, 30, 0, true⟩

/-- A pool whose sol reserve is empty. -/
def pool_drained_s : LiquidityPool := ⟨10, 0, 1, 30, 0, true⟩

/-- A mid-sized pool used for remove_liquidity scenarios. -/
def pool_mid : LiquidityPool := ⟨10, 10, 5, 30, 0, true⟩

/-- A pool with zero LP supply used for the division-by-zero scenario. -/
def pool_lp0 : LiquidityPool := ⟨3, 3, 0, 30, 0, true⟩

/-- A pool whose recorded authority is the identity 7. -/
def pool_auth : LiquidityPool := ⟨100, 100, 10, 30, 7, true⟩

deriving instance DecidableEq for Except

lemma rnd53_small (n : Nat) (h : n < 2 ^ 53) : rnd53 n = n := by
  unfold rnd53
  exact if_pos h

lemma rnd53_two63 : rnd53 (2 ^ 63) = 2 ^ 63 := by
  have h : Nat.log 2 (2 ^ 63) = 63 := Nat.log_pow (by norm_num) 63
  simp only [rnd53, h]
  norm_num

lemma rnd53_two63_plus : rnd53 (2 ^ 63 + 2 ^ 13) = 2 ^ 63 + 2 ^ 13 := by
  have h : Nat.log 2 (2 ^ 63 + 2 ^ 13) = 63 :=
    Nat.log_eq_of_pow_le_of_lt_pow (by norm_num) (by norm_num)
  simp only [rnd53, h]
  norm_num

lemma rnd53_prod126 : rnd53 (2 ^ 126 + 2 ^ 76) = 2 ^ 126 + 2 ^ 76 := by
  have h : Nat.log 2 (2 ^ 126 + 2 ^ 76) = 126 :=
    Nat.log_eq_of_pow_le_of_lt_pow (by norm_num) (by norm_num)
  simp only [rnd53, h]
  norm_num

lemma sqrt_prod126 : Nat.sqrt (2 ^ 126 + 2 ^ 76) = 2 ^ 63 + 2 ^ 12 - 1 :=
  (Nat.eq_sqrt.mpr (by constructor <;> norm_num)).symm

lemma f64_sqrt_trunc_prod126 : f64_sqrt_trunc (2 ^ 126 + 2 ^ 76) = 2 ^ 63 + 2 ^ 12 := by
  have h : Nat.log 2 (2 ^ 126 + 2 ^ 76) = 126 :=
    Nat.log_eq_of_pow_le_of_lt_pow (by norm_num) (by norm_num)
  simp only [f64_sqrt_trunc, h, sqrt_prod126]
  norm_num

lemma f64_geo_mean_big : f64_geo_mean (2 ^ 63) (2 ^ 63 + 2 ^ 13) = 2 ^ 63 + 2 ^ 12 := by
  have hp : rnd53 (2 ^ 63) * rnd53 (2 ^ 63 + 2 ^ 13) = 2 ^ 126 + 2 ^ 76 := by
    rw [rnd53_two63, rnd53_two63_plus]; norm_num
  simp only [f64_geo_mean, hp, rnd53_prod126, f64_sqrt_trunc_prod126, U64]
  norm_num

lemma sqrt_pow104 : Nat.sqrt (1 * 4 ^ 52) = 2 ^ 52 :=
  (Nat.eq_sqrt.mpr (by constructor <;> norm_num)).symm

lemma f64_sqrt_trunc_one : f64_sqrt_trunc 1 = 1 := by
  simp only [f64_sqrt_trunc, Nat.log_one_right, sqrt_pow104]
  norm_num

lemma f64_geo_mean_one : f64_geo_mean 1 1 = 1 := by
  have h1 : rnd53 1 = 1 := rnd53_small 1 (by norm_num)
  simp only [f64_geo_mean, h1, mul_one, f64_sqrt_trunc_one, U64]
  norm_num

lemma eff_le_amount (fee a : Nat) (h : fee ≤ 10000) :
    a * (10000 - fee) / 10000 ≤ a := by
  calc a * (10000 - fee) / 10000 ≤ a * 10000 / 10000 :=
        Nat.div_le_div_right (Nat.mul_le_mul_left a (by omega))
    _ = a := by omega

lemma swap_t2s_quote_ok_elim (p : LiquidityPool) (a out : Nat)
    (h : swap_t2s_quote p a = .ok out) :
    p.fee_rate ≤ 10000 ∧
    p.token_reserve + a * (10000 - p.fee_rate) / 10000 ≠ 0 ∧
    out = p.sol_reserve * (a * (10000 - p.fee_rate) / 10000) /
      (p.token_reserve + a * (10000 - p.fee_rate) / 10000) := by
  simp only [swap_t2s_quote] at h
  split_ifs at h with h1 h2 h3 h4 h5
  injection h with h6
  exact ⟨by omega, h5, h6.symm⟩

lemma swap_t2s_ok_elim (p : LiquidityPool) (a m : Nat) (p1 : LiquidityPool)
    (out : Nat) (h : swap_token_to_sol p a m = .ok (p1, out)) :
    swap_t2s_quote p a = .ok out ∧ m ≤ out ∧ out < p.sol_reserve ∧
    p.token_reserve + a < U64 ∧
    p1 = { p with token_reserve := p.token_reserve + a,
                  sol_reserve := p.sol_reserve - out } := by
  simp only [swap_token_to_sol] at h
  cases hq : swap_t2s_quote p a with
  | error e => rw [hq] at h; exact Except.noConfusion h
  | ok o =>
    simp only [hq] at h
    split_ifs at h with h1 h2 h3
    injection h with h4
    injection h4 with h5 h6
    subst h6
    exact ⟨rfl, by omega, by omega, by omega, h5.symm⟩

lemma swap_s2t_quote_ok_elim (p : LiquidityPool) (a out : Nat)
    (h : swap_s2t_quote p a = .ok out) :
    p.fee_rate ≤ 10000 ∧
    p.sol_reserve + a * (10000 - p.fee_rate) / 10000 ≠ 0 ∧
    out = p.token_reserve * (a * (10000 - p.fee_rate) / 10000) /
      (p.sol_reserve + a * (10000 - p.fee_rate) / 10000) := by
  simp only [swap_s2t_quote] at h
  split_ifs at h with h1 h2 h3 h4 h5
  injection h with h6
  exact ⟨by omega, h5, h6.symm⟩

lemma swap_s2t_ok_elim (p : LiquidityPool) (a m : Nat) (p1 : LiquidityPool)
    (out : Nat) (h : swap_sol_to_token p a m = .ok (p1, out)) :
    swap_s2t_quote p a = .ok out ∧ m ≤ out ∧ out < p.token_reserve ∧
    p.sol_reserve + a < U64 ∧
    p1 = { p with sol_reserve := p.sol_reserve + a,
                  token_reserve := p.token_reserve - out } := by
  simp only [swap_sol_to_token] at h
  cases hq : swap_s2t_quote p a with
  | error e => rw [hq] at h; exact Except.noConfusion h
  | ok o =>
    simp only [hq] at h
    split_ifs at h with h1 h2 h3
    injection h with h4
    injection h4 with h5 h6
    subst h6
    exact ⟨rfl, by omega, by omega, by omega, h5.symm⟩

lemma constant_product_key (tr s1 eff out a : Nat)
    (h1 : out * (tr + eff) ≤ (s1 + out) * eff) (hea : eff ≤ a) :
    tr * (s1 + out) ≤ (tr + a) * s1 := by
  have h2 : out * tr ≤ s1 * eff := by
    have hh : out * tr + out * eff ≤ s1 * eff + out * eff := by
      have e1 : out * tr + out * eff = out * (tr + eff) := by ring
      have e2 : s1 * eff + out * eff = (s1 + out) * eff := by ring
      rw [e1, e2]; exact h1
    exact Nat.le_of_add_le_add_right hh
  have h3 : s1 * eff ≤ s1 * a := Nat.mul_le_mul_left s1 hea
  have h4 : tr * out ≤ s1 * a := by rw [Nat.mul_comm]; exact le_trans h2 h3
  calc tr * (s1 + out) = tr * s1 + tr * out := by ring
    _ ≤ tr * s1 + s1 * a := Nat.add_le_add_left h4 _
    _ = (tr + a) * s1 := by ring

/-- C1: for every pool state and every swap in either direction that
returns success, the product of the two reserves after the operation is at
least the product before the operation. -/
theorem swap_reserve_product_monotone (p : LiquidityPool) (a m : Nat)
    (p1 : LiquidityPool) (out : Nat) :
    (swap_token_to_sol p a m = .ok (p1, out) →
      p.token_reserve * p.sol_reserve ≤ p1.token_reserve * p1.sol_reserve) ∧
    (swap_sol_to_token p a m = .ok (p1, out) →
      p.token_reserve * p.sol_reserve ≤ p1.token_reserve * p1.sol_reserve) := by
  constructor
  · intro h
    obtain ⟨hq, hm, hlt, hU, hp1⟩ := swap_t2s_ok_elim p a m p1 out h
    obtain ⟨hfee, hne, hout⟩ := swap_t2s_quote_ok_elim p a out hq
    subst hp1
    have hos : out ≤ p.sol_reserve := le_of_lt hlt
    have h1 : out * (p.token_reserve + a * (10000 - p.fee_rate) / 10000) ≤
        ((p.sol_reserve - out) + out) * (a * (10000 - p.fee_rate) / 10000) := by
      rw [Nat.sub_add_cancel hos, hout]
      exact Nat.div_mul_le_self _ _
    have hkey := constant_product_key p.token_reserve (p.sol_reserve - out)
      (a * (10000 - p.fee_rate) / 10000) out a h1 (eff_le_amount p.fee_rate a hfee)
    rw [Nat.sub_add_cancel hos] at hkey
    exact hkey
  · intro h
    obtain ⟨hq, hm, hlt, hU, hp1⟩ := swap_s2t_ok_elim p a m p1 out h
    obtain ⟨hfee, hne, hout⟩ := swap_s2t_quote_ok_elim p a out hq
    subst hp1
    have hos : out ≤ p.token_reserve := le_of_lt hlt
    have h1 : out * (p.sol_reserve + a * (10000 - p.fee_rate) / 10000) ≤
        ((p.token_reserve - out) + out) * (a * (10000 - p.fee_rate) / 10000) := by
      rw [Nat.sub_add_cancel hos, hout]
      exact Nat.div_mul_le_self _ _
    have hkey := constant_product_key p.sol_reserve (p.token_reserve - out)
      (a * (10000 - p.fee_rate) / 10000) out a h1 (eff_le_amount p.fee_rate a hfee)
    rw [Nat.sub_add_cancel hos] at hkey
    calc p.token_reserve * p.sol_reserve = p.sol_reserve * p.token_reserve := by ring
      _ ≤ (p.sol_reserve + a) * (p.token_reserve - out) := hkey
      _ = (p.token_reserve - out) * (p.sol_reserve + a) := by ring

/-- Witness for C1: both directions instantiated on the concrete spec pool,
the swap of 1000 tokens from section 8 of the spec. -/
theorem swap_reserve_product_monotone_witness :
    pool_c2.token_reserve * pool_c2.sol_reserve ≤ 1001000 * 999004 ∧
    pool_c2.token_reserve * pool_c2.sol_reserve ≤ 999004 * 1001000 := by
  constructor
  · exact (swap_reserve_product_monotone pool_c2 1000 0
      ⟨1001000, 999004, 1000000, 30, 0, true⟩ 996).1 (by decide)
  · exact (swap_reserve_product_monotone pool_c2 1000 0
      ⟨999004, 1001000, 1000000, 30, 0, true⟩ 996).2 (by decide)

/-- C2: for every swap the output equals the constant-product quote on the
fee-reduced input, effective_in = amount_in * (10000 - fee_rate) / 10000 and
amount_out = reserve_out * effective_in / (reserve_in + effective_in), with
integer truncation; and on the concrete spec pool (reserves 1000000 and
1000000, fee 30) a token-to-sol swap of 1000 computes effective_in 997 and
amount_out 996, fails with SlippageExceeded whenever min_amount_out
exceeds 996, and otherwise succeeds updating the reserves to 1001000 and
999004. -/
theorem swap_quote_formula (p : LiquidityPool) (a m : Nat)
    (p1 : LiquidityPool) (out : Nat) :
    (swap_token_to_sol p a m = .ok (p1, out) →
      out = spec_amount_out p.token_reserve p.sol_reserve
        (spec_effective_in p.fee_rate a)) ∧
    (swap_sol_to_token p a m = .ok (p1, out) →
      out = spec_amount_out p.sol_reserve p.token_reserve
        (spec_effective_in p.fee_rate a)) ∧
    spec_effective_in 30 1000 = 997 ∧
    spec_amount_out 1000000 1000000 997 = 996 ∧
    (996 < m → swap_token_to_sol pool_c2 1000 m =
      .error (.err .SlippageExceeded)) ∧
    (m ≤ 996 → swap_token_to_sol pool_c2 1000 m =
      .ok (⟨1001000, 999004, 1000000, 30, 0, true⟩, 996)) := by
  have hq : swap_t2s_quote pool_c2 1000 = .ok 996 := by decide
  refine ⟨?_, ?_, by decide, by decide, ?_, ?_⟩
  · intro h
    obtain ⟨hqq, _, _, _, _⟩ := swap_t2s_ok_elim p a m p1 out h
    obtain ⟨_, _, hout⟩ := swap_t2s_quote_ok_elim p a out hqq
    simp only [spec_amount_out, spec_effective_in]
    exact hout
  · intro h
    obtain ⟨hqq, _, _, _, _⟩ := swap_s2t_ok_elim p a m p1 out h
    obtain ⟨_, _, hout⟩ := swap_s2t_quote_ok_elim p a out hqq
    simp only [spec_amount_out, spec_effective_in]
    exact hout
  · intro hm
    simp only [swap_token_to_sol, hq]
    rw [if_pos hm]
  · intro hm
    simp only [swap_token_to_sol, hq]
    rw [if_neg (by omega : ¬ 996 < m)]
    decide

/-- Witness for C2: the formula conjuncts and the concrete scenario
conjuncts instantiated at the swap of 1000 tokens on the spec pool. -/
theorem swap_quote_formula_witness :
    (996 : Nat) = spec_amount_out pool_c2.token_reserve pool_c2.sol_reserve
      (spec_effective_in pool_c2.fee_rate 1000) ∧
    swap_token_to_sol pool_c2 1000 997 = .error (.err .SlippageExceeded) ∧
    swap_token_to_sol pool_c2 1000 996 =
      .ok (⟨1001000, 999004, 1000000, 30, 0, true⟩, 996) := by
  refine ⟨?_, ?_, ?_⟩
  · exact (swap_quote_formula pool_c2 1000 0
      ⟨1001000, 999004, 1000000, 30, 0, true⟩ 996).1 (by decide)
  · exact (swap_quote_formula pool_c2 1000 997 pool_c2 0).2.2.2.2.1 (by norm_num)
  · exact (swap_quote_formula pool_c2 1000 996 pool_c2 0).2.2.2.2.2 (by norm_num)

/-- C6: in each of the four operations carrying a caller minimum, if the
computed minted or output amount is strictly below that minimum the
operation fails with SlippageExceeded (in this model an error result
returns no state, so the pool is unchanged). -/
theorem slippage_enforcement (p : LiquidityPool)
    (ta sa minlp a m l mt ms ft fs lp out1 out2 ot os : Nat) :
    (add_liquidity_quote p ta sa = .ok (ft, fs, lp) → lp < minlp →
      add_liquidity p ta sa minlp = .error (.err .SlippageExceeded)) ∧
    (swap_t2s_quote p a = .ok out1 → out1 < m →
      swap_token_to_sol p a m = .error (.err .SlippageExceeded)) ∧
    (swap_s2t_quote p a = .ok out2 → out2 < m →
      swap_sol_to_token p a m = .error (.err .SlippageExceeded)) ∧
    (remove_quote p l = .ok (ot, os) → ot < mt ∨ os < ms →
      remove_liquidity p l mt ms = .error (.err .SlippageExceeded)) := by
  refine ⟨?_, ?_, ?_, ?_⟩
  · intro hq hlt
    simp only [add_liquidity, hq]
    rw [if_pos hlt]
  · intro hq hlt
    simp only [swap_token_to_sol, hq]
    rw [if_pos hlt]
  · intro hq hlt
    simp only [swap_sol_to_token, hq]
    rw [if_pos hlt]
  · intro hq hd
    simp only [remove_liquidity, hq]
    by_cases hmt : ot < mt
    · rw [if_pos hmt]
    · rw [if_neg hmt, if_pos (hd.resolve_left hmt)]

/-- Witness for C6: each of the four slippage gates triggered on a concrete
pool with a floor one above the computed amount. -/
theorem slippage_enforcement_witness :
    add_liquidity pool_small 10 10 2 = .error (.err .SlippageExceeded) ∧
    swap_token_to_sol pool_c2 1000 998 = .error (.err .SlippageExceeded) ∧
    swap_sol_to_token pool_c2 1000 998 = .error (.err .SlippageExceeded) ∧
    remove_liquidity pool_mid 2 5 0 = .error (.err .SlippageExceeded) := by
  refine ⟨?_, ?_, ?_, ?_⟩
  · exact (slippage_enforcement pool_small 10 10 2 0 0 0 0 0 10 10 1 0 0 0 0).1
      (by decide) (by norm_num)
  · exact (slippage_enforcement pool_c2 0 0 0 1000 998 0 0 0 0 0 0 996 0 0 0).2.1
      (by decide) (by norm_num)
  · exact (slippage_enforcement pool_c2 0 0 0 1000 998 0 0 0 0 0 0 0 996 0 0).2.2.1
      (by decide) (by norm_num)
  · exact (slippage_enforcement pool_mid 0 0 0 0 0 2 5 0 0 0 0 0 0 4 4).2.2.2
      (by decide) (Or.inl (by norm_num))

/-- C7 counterexample: on the pool with zero token reserve and sol reserve
10, a token-to-sol swap of 2 computes amount_out 10, which equals the
output reserve, yet with min_sol_amount 11 the swap fails with
SlippageExceeded and not with InsufficientLiquidity, because the slippage
gate runs first (lib.rs line 163 before line 164); the claim as stated is
therefore false. -/
theorem drain_check_counterexample :
    swap_t2s_quote pool_drained_t 2 = .ok 10 ∧
    pool_drained_t.sol_reserve ≤ 10 ∧
    swap_token_to_sol pool_drained_t 2 11 = .error (.err .SlippageExceeded) ∧
    swap_token_to_sol pool_drained_t 2 11 ≠
      .error (.err .InsufficientLiquidity) := by
  refine ⟨by decide, by decide, by decide, by decide⟩

/-- C7 amended: if the computed amount_out meets the slippage floor and is
at least the output-side reserve, the swap fails with
InsufficientLiquidity (when the floor is not met, SlippageExceeded takes
precedence); and a successful swap always pays out strictly less than the
output reserve, leaving it positive. -/
theorem drain_protection (p : LiquidityPool) (a m : Nat)
    (p1 : LiquidityPool) (out : Nat) :
    (swap_t2s_quote p a = .ok out → m ≤ out → p.sol_reserve ≤ out →
      swap_token_to_sol p a m = .error (.err .InsufficientLiquidity)) ∧
    (swap_token_to_sol p a m = .ok (p1, out) →
      out < p.sol_reserve ∧ 0 < p1.sol_reserve) ∧
    (swap_s2t_quote p a = .ok out → m ≤ out → p.token_reserve ≤ out →
      swap_sol_to_token p a m = .error (.err .InsufficientLiquidity)) ∧
    (swap_sol_to_token p a m = .ok (p1, out) →
      out < p.token_reserve ∧ 0 < p1.token_reserve) := by
  refine ⟨?_, ?_, ?_, ?_⟩
  · intro hq hm hd
    simp only [swap_token_to_sol, hq]
    rw [if_neg (by omega : ¬ out < m), if_pos hd]
  · intro h
    obtain ⟨_, _, hlt, _, hp1⟩ := swap_t2s_ok_elim p a m p1 out h
    subst hp1
    refine ⟨hlt, ?_⟩
    show 0 < p.sol_reserve - out
    omega
  · intro hq hm hd
    simp only [swap_sol_to_token, hq]
    rw [if_neg (by omega : ¬ out < m), if_pos hd]
  · intro h
    obtain ⟨_, _, hlt, _, hp1⟩ := swap_s2t_ok_elim p a m p1 out h
    subst hp1
    refine ⟨hlt, ?_⟩
    show 0 < p.token_reserve - out
    omega

/-- Witness for C7 amended: the InsufficientLiquidity failures on the
one-sided pools and the positive-remainder conjunct on the spec pool
swap. -/
theorem drain_protection_witness :
    swap_token_to_sol pool_drained_t 2 0 =
      .error (.err .InsufficientLiquidity) ∧
    (996 < pool_c2.sol_reserve ∧ 0 < (999004 : Nat)) ∧
    swap_sol_to_token pool_drained_s 2 0 =
      .error (.err .InsufficientLiquidity) ∧
    (996 < pool_c2.token_reserve ∧ 0 < (999004 : Nat)) := by
  refine ⟨?_, ?_, ?_, ?_⟩
  · exact (drain_protection pool_drained_t 2 0 pool_c2 10).1
      (by decide) (by norm_num) (by decide)
  · exact (drain_protection pool_c2 1000 0
      ⟨1001000, 999004, 1000000, 30, 0, true⟩ 996).2.1 (by decide)
  · exact (drain_protection pool_drained_s 2 0 pool_c2 10).2.2.1
      (by decide) (by norm_num) (by decide)
  · exact (drain_protection pool_c2 1000 0
      ⟨999004, 1001000, 1000000, 30, 0, true⟩ 996).2.2.2 (by decide)

lemma add_quote_ok_elim (p : LiquidityPool) (ta sa ft fs lp : Nat)
    (h : add_liquidity_quote p ta sa = .ok (ft, fs, lp)) :
    ft = spec_final_token p ta sa ∧ fs = spec_final_sol p ta sa ∧
    ((p.lp_supply = 0 ∧ lp = f64_geo_mean ft fs) ∨
     (p.lp_supply ≠ 0 ∧ p.token_reserve ≠ 0 ∧ p.sol_reserve ≠ 0 ∧
      lp = min (ft * p.lp_supply / p.token_reserve)
               (fs * p.lp_supply / p.sol_reserve))) := by
  simp only [add_liquidity_quote] at h
  split_ifs at h with h1 h2 h3 h4 h5 h6 h7 h8 h9 h10 h11 h12 <;>
    (simp only [Except.ok.injEq, Prod.mk.injEq] at h
     obtain ⟨hft, hfs, hlp⟩ := h
     subst hft
     subst hfs
     subst hlp
     refine ⟨by simp [spec_final_token, spec_optimal_token, *],
             by simp [spec_final_sol, spec_optimal_sol, *], ?_⟩
     first
       | exact Or.inl ⟨by assumption,
           by simp [spec_final_token, spec_final_sol, spec_optimal_token,
                    spec_optimal_sol, *]⟩
       | exact Or.inr ⟨by assumption, by assumption, by assumption,
           by simp [spec_final_token, spec_final_sol, spec_optimal_token,
                    spec_optimal_sol, *]⟩)

lemma add_ok_elim (p : LiquidityPool) (ta sa minlp : Nat)
    (p1 : LiquidityPool) (lp : Nat)
    (h : add_liquidity p ta sa minlp = .ok (p1, lp)) :
    minlp ≤ lp ∧
    p1.token_reserve = p.token_reserve + spec_final_token p ta sa ∧
    p1.sol_reserve = p.sol_reserve + spec_final_sol p ta sa ∧
    p1.lp_supply = p.lp_supply + lp ∧
    (p.lp_supply = 0 →
      lp = f64_geo_mean (spec_final_token p ta sa) (spec_final_sol p ta sa)) ∧
    (p.lp_supply ≠ 0 →
      p.token_reserve ≠ 0 ∧ p.sol_reserve ≠ 0 ∧
      lp = min (spec_final_token p ta sa * p.lp_supply / p.token_reserve)
               (spec_final_sol p ta sa * p.lp_supply / p.sol_reserve)) := by
  cases hq : add_liquidity_quote p ta sa with
  | error e =>
    simp only [add_liquidity, hq] at h
    exact Except.noConfusion h
  | ok tri =>
    obtain ⟨ft, fs, lp0⟩ := tri
    obtain ⟨hft, hfs, hbranch⟩ := add_quote_ok_elim p ta sa ft fs lp0 hq
    simp only [add_liquidity, hq] at h
    split_ifs at h with k1 k2 k3 k4
    simp only [Except.ok.injEq, Prod.mk.injEq] at h
    obtain ⟨hp1, hlp0⟩ := h
    subst hlp0
    subst hp1
    subst hft
    subst hfs
    refine ⟨by omega, rfl, rfl, rfl, ?_, ?_⟩
    · intro hz
      rcases hbranch with ⟨_, hv⟩ | ⟨hnz, _⟩
      · exact hv
      · exact absurd hz hnz
    · intro hnz
      rcases hbranch with ⟨hz, _⟩ | ⟨_, htr, hsr, hv⟩
      · exact absurd hz hnz
      · exact ⟨htr, hsr, hv⟩

lemma remove_ok_elim (p : LiquidityPool) (l mt ms : Nat)
    (p1 : LiquidityPool) (ot os : Nat)
    (h : remove_liquidity p l mt ms = .ok (p1, ot, os)) :
    p.lp_supply ≠ 0 ∧
    ot = p.token_reserve * l / p.lp_supply ∧
    os = p.sol_reserve * l / p.lp_supply ∧
    mt ≤ ot ∧ ms ≤ os ∧
    ot ≤ p.token_reserve ∧ os ≤ p.sol_reserve ∧ l ≤ p.lp_supply ∧
    p1 = { p with token_reserve := p.token_reserve - ot,
                  sol_reserve := p.sol_reserve - os,
                  lp_supply := p.lp_supply - l } := by
  cases hq : remove_quote p l with
  | error e =>
    simp only [remove_liquidity, hq] at h
    exact Except.noConfusion h
  | ok pr =>
    obtain ⟨o1, o2⟩ := pr
    have hq2 := hq
    simp only [remove_quote] at hq2
    split_ifs at hq2 with g1 g2 g3
    simp only [Except.ok.injEq, Prod.mk.injEq] at hq2
    obtain ⟨ho1, ho2⟩ := hq2
    simp only [remove_liquidity, hq] at h
    split_ifs at h with k1 k2 k3 k4 k5
    simp only [Except.ok.injEq, Prod.mk.injEq] at h
    obtain ⟨hp1, hot, hos⟩ := h
    subst hot
    subst hos
    subst ho1
    subst ho2
    exact ⟨g2, rfl, rfl, by omega, by omega, by omega, by omega, by omega,
           hp1.symm⟩

/-- C3 counterexample: on the empty pool, add_liquidity with token_amount
2 to the 63 and sol_amount 2 to the 63 plus 2 to the 13 succeeds and mints
2 to the 63 plus 2 to the 12 LP tokens (the truncated f64 geometric mean),
while the exact integer geometric mean of the two deposited finals is one
less; the genesis branch of the claim is therefore false as stated. -/
theorem add_liquidity_geo_mean_counterexample :
    add_liquidity pool_fresh (2 ^ 63) (2 ^ 63 + 2 ^ 13) 0 =
      .ok (⟨2 ^ 63, 2 ^ 63 + 2 ^ 13, 2 ^ 63 + 2 ^ 12, 30, 0, true⟩,
           2 ^ 63 + 2 ^ 12) ∧
    Nat.sqrt (2 ^ 63 * (2 ^ 63 + 2 ^ 13)) ≠ 2 ^ 63 + 2 ^ 12 := by
  constructor
  · have hq : add_liquidity_quote pool_fresh (2 ^ 63) (2 ^ 63 + 2 ^ 13) =
        .ok (2 ^ 63, 2 ^ 63 + 2 ^ 13, 2 ^ 63 + 2 ^ 12) := by
      simp only [add_liquidity_quote, pool_fresh]
      norm_num
      have hg := f64_geo_mean_big
      norm_num at hg
      exact hg
    simp only [add_liquidity, hq]
    norm_num [pool_fresh, U64]
  · rw [show (2 : Nat) ^ 63 * (2 ^ 63 + 2 ^ 13) = 2 ^ 126 + 2 ^ 76 by
      norm_num, sqrt_prod126]
    norm_num

/-- C3 amended: for every successful add_liquidity the deposited legs are
final_token = min(token_amount, optimal_token) and final_sol =
min(sol_amount, optimal_sol) with the optimal amounts computed from the
current ratio by floor division (or the requested amount when the opposite
reserve is zero); the reserves grow by exactly those finals and lp_supply
by the minted amount; the minted amount is the minimum-ratio value when
lp_supply is nonzero, and in the genesis branch it is the truncated
double-precision geometric mean of the finals (which can differ from the
exact integer geometric mean). -/
theorem add_liquidity_functional (p : LiquidityPool) (ta sa minlp : Nat)
    (p1 : LiquidityPool) (lp : Nat)
    (h : add_liquidity p ta sa minlp = .ok (p1, lp)) :
    p1.token_reserve = p.token_reserve + spec_final_token p ta sa ∧
    p1.sol_reserve = p.sol_reserve + spec_final_sol p ta sa ∧
    p1.lp_supply = p.lp_supply + lp ∧
    (p.lp_supply = 0 →
      lp = f64_geo_mean (spec_final_token p ta sa) (spec_final_sol p ta sa)) ∧
    (p.lp_supply ≠ 0 →
      lp = min (spec_final_token p ta sa * p.lp_supply / p.token_reserve)
               (spec_final_sol p ta sa * p.lp_supply / p.sol_reserve)) := by
  obtain ⟨_, h1, h2, h3, h4, h5⟩ := add_ok_elim p ta sa minlp p1 lp h
  exact ⟨h1, h2, h3, h4, fun hnz => (h5 hnz).2.2⟩

/-- Witness for C3 amended: the deposit of 10 and 10 into the small pool
with reserves 1000 and 1000 and LP supply 100, which mints exactly one LP
token and grows each reserve by 10. -/
theorem add_liquidity_functional_witness :
    (1010 : Nat) = 1000 + spec_final_token pool_small 10 10 ∧
    (1010 : Nat) = 1000 + spec_final_sol pool_small 10 10 ∧
    (101 : Nat) = 100 + 1 ∧
    (pool_small.lp_supply = 0 →
      (1 : Nat) = f64_geo_mean (spec_final_token pool_small 10 10)
        (spec_final_sol pool_small 10 10)) ∧
    (pool_small.lp_supply ≠ 0 →
      (1 : Nat) = min (spec_final_token pool_small 10 10 * 100 / 1000)
                      (spec_final_sol pool_small 10 10 * 100 / 1000)) :=
  add_liquidity_functional pool_small 10 10 0
    ⟨1010, 1010, 101, 30, 0, true⟩ 1 (by decide)

/-- C5 counterexample: on the pool with reserves 5 and 5 but LP supply 0,
depositing 1 and 1 mints one LP token, and immediately redeeming that one
LP token pays out the whole reserves, 6 and 6, strictly more than was
deposited; the round-trip bound is false for pool states with zero LP
supply and nonzero reserves. -/
theorem round_trip_counterexample :
    add_liquidity pool_zero_lp 1 1 0 = .ok (⟨6, 6, 1, 30, 0, true⟩, 1) ∧
    remove_liquidity ⟨6, 6, 1, 30, 0, true⟩ 1 0 0 =
      .ok (⟨0, 0, 0, 30, 0, true⟩, 6, 6) ∧
    ¬ (6 : Nat) ≤ 1 := by
  refine ⟨?_, by decide, by norm_num⟩
  have hq : add_liquidity_quote pool_zero_lp 1 1 = .ok (1, 1, 1) := by
    simp only [add_liquidity_quote, pool_zero_lp]
    norm_num [U64]
    exact f64_geo_mean_one
  simp only [add_liquidity, hq]
  norm_num [pool_zero_lp, U64]

/-- C5 amended: for every pool state with positive lp_supply, a successful
add_liquidity followed immediately by a successful remove_liquidity of
exactly the LP tokens just minted returns a token amount and a sol amount
each at most the deposited finals; the round trip never pays out more than
was put in. -/
theorem add_remove_round_trip (p : LiquidityPool) (ta sa minlp : Nat)
    (p1 : LiquidityPool) (lp mt ms : Nat) (p2 : LiquidityPool) (ot os : Nat)
    (hL : 0 < p.lp_supply)
    (hadd : add_liquidity p ta sa minlp = .ok (p1, lp))
    (hrem : remove_liquidity p1 lp mt ms = .ok (p2, ot, os)) :
    ot ≤ spec_final_token p ta sa ∧ os ≤ spec_final_sol p ta sa := by
  obtain ⟨_, htr1, hsr1, hlp1, _, hB⟩ := add_ok_elim p ta sa minlp p1 lp hadd
  obtain ⟨hTne, hSne, hlpval⟩ := hB (by omega)
  obtain ⟨hL1ne, hot, hos, _, _, _, _, _, _⟩ :=
    remove_ok_elim p1 lp mt ms p2 ot os hrem
  have hL1pos : 0 < p1.lp_supply := Nat.pos_of_ne_zero hL1ne
  constructor
  · have hlpT : lp * p.token_reserve ≤
        spec_final_token p ta sa * p.lp_supply := by
      have hle : lp ≤ spec_final_token p ta sa * p.lp_supply /
          p.token_reserve := hlpval ▸ min_le_left _ _
      exact (Nat.le_div_iff_mul_le (Nat.pos_of_ne_zero hTne)).mp hle
    have hb : p1.token_reserve * lp ≤ spec_final_token p ta sa *
        p1.lp_supply := by
      rw [htr1, hlp1]
      calc (p.token_reserve + spec_final_token p ta sa) * lp
          = lp * p.token_reserve + spec_final_token p ta sa * lp := by ring
        _ ≤ spec_final_token p ta sa * p.lp_supply +
            spec_final_token p ta sa * lp := Nat.add_le_add_right hlpT _
        _ = spec_final_token p ta sa * (p.lp_supply + lp) := by ring
    rw [hot]
    calc p1.token_reserve * lp / p1.lp_supply
        ≤ spec_final_token p ta sa * p1.lp_supply / p1.lp_supply :=
          Nat.div_le_div_right hb
      _ = spec_final_token p ta sa := Nat.mul_div_cancel _ hL1pos
  · have hlpS : lp * p.sol_reserve ≤
        spec_final_sol p ta sa * p.lp_supply := by
      have hle : lp ≤ spec_final_sol p ta sa * p.lp_supply /
          p.sol_reserve := hlpval ▸ min_le_right _ _
      exact (Nat.le_div_iff_mul_le (Nat.pos_of_ne_zero hSne)).mp hle
    have hb : p1.sol_reserve * lp ≤ spec_final_sol p ta sa *
        p1.lp_supply := by
      rw [hsr1, hlp1]
      calc (p.sol_reserve + spec_final_sol p ta sa) * lp
          = lp * p.sol_reserve + spec_final_sol p ta sa * lp := by ring
        _ ≤ spec_final_sol p ta sa * p.lp_supply +
            spec_final_sol p ta sa * lp := Nat.add_le_add_right hlpS _
        _ = spec_final_sol p ta sa * (p.lp_supply + lp) := by ring
    rw [hos]
    calc p1.sol_reserve * lp / p1.lp_supply
        ≤ spec_final_sol p ta sa * p1.lp_supply / p1.lp_supply :=
          Nat.div_le_div_right hb
      _ = spec_final_sol p ta sa := Nat.mul_div_cancel _ hL1pos

/-- Witness for C5 amended: depositing 10 and 10 into the small pool mints
one LP token and redeeming it immediately pays back 10 and 10, within the
deposited amounts. -/
theorem add_remove_round_trip_witness :
    (10 : Nat) ≤ spec_final_token pool_small 10 10 ∧
    (10 : Nat) ≤ spec_final_sol pool_small 10 10 :=
  add_remove_round_trip pool_small 10 10 0 ⟨1010, 1010, 101, 30, 0, true⟩
    1 0 0 ⟨1000, 1000, 100, 30, 0, true⟩ 10 10 (by decide) (by decide)
    (by decide)

/-- C4 counterexample: initialize_pool with t = 2 to the 63 and b = 2 to
the 63 plus 2 to the 13 sets lp_supply to 2 to the 63 plus 2 to the 12,
the truncated f64 geometric mean, while the exact truncated integer square
root of the exact product t * b is one smaller; the genesis LP claim is
false as stated. -/
theorem genesis_lp_counterexample :
    (initialize_pool (2 ^ 63) (2 ^ 63 + 2 ^ 13) 30 0).lp_supply =
      2 ^ 63 + 2 ^ 12 ∧
    Nat.sqrt (2 ^ 63 * (2 ^ 63 + 2 ^ 13)) = 2 ^ 63 + 2 ^ 12 - 1 ∧
    (initialize_pool (2 ^ 63) (2 ^ 63 + 2 ^ 13) 30 0).lp_supply ≠
      Nat.sqrt (2 ^ 63 * (2 ^ 63 + 2 ^ 13)) := by
  have h1 : (initialize_pool (2 ^ 63) (2 ^ 63 + 2 ^ 13) 30 0).lp_supply =
      2 ^ 63 + 2 ^ 12 := f64_geo_mean_big
  have h2 : Nat.sqrt (2 ^ 63 * (2 ^ 63 + 2 ^ 13)) = 2 ^ 63 + 2 ^ 12 - 1 := by
    rw [show (2 : Nat) ^ 63 * (2 ^ 63 + 2 ^ 13) = 2 ^ 126 + 2 ^ 76 by
      norm_num]
    exact sqrt_prod126
  refine ⟨h1, h2, ?_⟩
  rw [h1, h2]
  norm_num

/-- C4 amended: a successful initialize on a previously uninitialized pool
records token_reserve t, sol_reserve b and the given fee, and sets
lp_supply to the u64 truncation of the double-precision square root of the
double-precision product of t and b, which can differ from the exact
floor of sqrt(t * b). -/
theorem genesis_state (t b fee auth : Nat) :
    (initialize_pool t b fee auth).token_reserve = t ∧
    (initialize_pool t b fee auth).sol_reserve = b ∧
    (initialize_pool t b fee auth).lp_supply = f64_geo_mean t b ∧
    (initialize_pool t b fee auth).fee_rate = fee ∧
    (initialize_pool t b fee auth).is_initialized = true :=
  ⟨rfl, rfl, rfl, rfl, rfl⟩

/-- C8 counterexample: a caller distinct from the recorded authority asking
for fee 2000 fails with Unauthorized and not with InvalidFeeRate, because
the authority account constraint is validated before the instruction body
reaches the fee bound; the unconditional first conjunct of the claim is
false as stated. -/
theorem fee_update_counterexample :
    update_pool_fee pool_auth 3 2000 = .error (.err .Unauthorized) ∧
    update_pool_fee pool_auth 3 2000 ≠ .error (.err .InvalidFeeRate) :=
  ⟨by decide, by decide⟩

/-- C8 amended: when the caller equals the recorded authority, a requested
fee above 1000 fails with InvalidFeeRate, and a requested fee at most 1000
succeeds replacing only the stored fee_rate; a caller different from the
recorded authority always fails with Unauthorized. -/
theorem fee_update_spec (p : LiquidityPool) (caller f : Nat) :
    (caller = p.pool_authority → 1000 < f →
      update_pool_fee p caller f = .error (.err .InvalidFeeRate)) ∧
    (caller = p.pool_authority → f ≤ 1000 →
      update_pool_fee p caller f = .ok { p with fee_rate := f }) ∧
    (caller ≠ p.pool_authority →
      update_pool_fee p caller f = .error (.err .Unauthorized)) := by
  refine ⟨?_, ?_, ?_⟩
  · intro hc hf
    simp only [update_pool_fee, if_pos hc, if_neg (by omega : ¬ f ≤ 1000)]
  · intro hc hf
    simp only [update_pool_fee, if_pos hc, if_pos hf]
  · intro hc
    simp only [update_pool_fee, if_neg hc]

/-- Witness for C8 amended: the three branches exercised on the pool whose
recorded authority is the identity 7. -/
theorem fee_update_spec_witness :
    update_pool_fee pool_auth 7 2000 = .error (.err .InvalidFeeRate) ∧
    update_pool_fee pool_auth 7 500 = .ok ⟨100, 100, 10, 500, 7, true⟩ ∧
    update_pool_fee pool_auth 3 500 = .error (.err .Unauthorized) := by
  refine ⟨?_, ?_, ?_⟩
  · exact (fee_update_spec pool_auth 7 2000).1 (by decide) (by norm_num)
  · exact (fee_update_spec pool_auth 7 500).2.1 (by decide) (by norm_num)
  · exact (fee_update_spec pool_auth 3 500).2.2 (by decide)

/-- C9: the checked u64 arithmetic of the model aborts rather than
wrapping: a remove_liquidity whose computed payout exceeds the token
reserve aborts with an arithmetic fault once the slippage gates pass (the
source has no lp_tokens bound, so the subtraction genuinely underflows); a
successful remove_liquidity relates the new reserves to the old by exact
arithmetic with no modular reduction; and the token-to-sol quote aborts
when the fee multiplication leaves the u64 range. -/
theorem checked_arithmetic_aborts (p : LiquidityPool) (l mt ms a : Nat)
    (p1 : LiquidityPool) (ot os : Nat) :
    (remove_quote p l = .ok (ot, os) → mt ≤ ot → ms ≤ os →
      p.token_reserve < ot →
      remove_liquidity p l mt ms = .error .overflow) ∧
    (remove_liquidity p l mt ms = .ok (p1, ot, os) →
      p1.token_reserve + ot = p.token_reserve ∧
      p1.sol_reserve + os = p.sol_reserve ∧
      p1.lp_supply + l = p.lp_supply) ∧
    (p.fee_rate ≤ 10000 → U64 ≤ a * (10000 - p.fee_rate) →
      swap_t2s_quote p a = .error .overflow) := by
  refine ⟨?_, ?_, ?_⟩
  · intro hq hmt hms hu
    simp only [remove_liquidity, hq]
    rw [if_neg (by omega : ¬ ot < mt), if_neg (by omega : ¬ os < ms),
        if_pos hu]
  · intro h
    obtain ⟨_, _, _, _, _, hot, hos, hl, hp1⟩ :=
      remove_ok_elim p l mt ms p1 ot os h
    subst hp1
    refine ⟨?_, ?_, ?_⟩
    · show p.token_reserve - ot + ot = p.token_reserve
      omega
    · show p.sol_reserve - os + os = p.sol_reserve
      omega
    · show p.lp_supply - l + l = p.lp_supply
      omega
  · intro hfee hov
    simp only [swap_t2s_quote]
    rw [if_neg (by omega : ¬ 10000 < p.fee_rate), if_pos hov]

/-- Witness for C9: redeeming 10 LP tokens against a supply of 5 computes
a payout of 20 from a reserve of 10 and aborts; redeeming 2 succeeds with
exact reserve arithmetic; and a fee multiplication on an input of 2 to the
60 overflows the quote. -/
theorem checked_arithmetic_aborts_witness :
    remove_liquidity pool_mid 10 0 0 = .error .overflow ∧
    ((6 : Nat) + 4 = 10 ∧ (6 : Nat) + 4 = 10 ∧ (3 : Nat) + 2 = 5) ∧
    swap_t2s_quote pool_c2 (2 ^ 60) = .error .overflow := by
  refine ⟨?_, ?_, ?_⟩
  · exact (checked_arithmetic_aborts pool_mid 10 0 0 0 pool_mid 20 20).1
      (by decide) (by norm_num) (by norm_num) (by decide)
  · exact (checked_arithmetic_aborts pool_mid 2 0 0 0
      ⟨6, 6, 3, 30, 0, true⟩ 4 4).2.1 (by decide)
  · exact (checked_arithmetic_aborts pool_c2 0 0 0 (2 ^ 60) pool_c2 0 0).2.2
      (by decide) (by norm_num [U64, pool_c2])

/-- C10: on every pool state with lp_supply zero, remove_liquidity divides
by lp_supply with no zero guard and aborts with a division-by-zero fault
whenever the preceding checked multiplication fits u64 (and with an
arithmetic fault in every case); it never returns one of the declared
program error kinds, so its payout computation is defined only under the
precondition that lp_supply is positive. -/
theorem remove_liquidity_div_by_zero (p : LiquidityPool) (l mt ms : Nat)
    (hz : p.lp_supply = 0) :
    (p.token_reserve * l < U64 →
      remove_liquidity p l mt ms = .error .divByZero) ∧
    (remove_liquidity p l mt ms = .error .divByZero ∨
     remove_liquidity p l mt ms = .error .overflow) ∧
    (∀ e : ExchangeError, remove_liquidity p l mt ms ≠ .error (.err e)) := by
  by_cases hov : U64 ≤ p.token_reserve * l
  · have hq : remove_quote p l = .error .overflow := by
      simp only [remove_quote]
      rw [if_pos hov]
    have hr : remove_liquidity p l mt ms = .error .overflow := by
      simp only [remove_liquidity, hq]
    exact ⟨fun hlt => absurd hov (by omega), Or.inr hr,
           fun e => by rw [hr]; simp⟩
  · have hq : remove_quote p l = .error .divByZero := by
      simp only [remove_quote]
      rw [if_neg hov, if_pos hz]
    have hr : remove_liquidity p l mt ms = .error .divByZero := by
      simp only [remove_liquidity, hq]
    exact ⟨fun _ => hr, Or.inl hr, fun e => by rw [hr]; simp⟩

/-- Witness for C10: redeeming one LP token against the pool with reserves
3 and 3 and zero LP supply dies with the division-by-zero fault and in
particular does not surface SlippageExceeded. -/
theorem remove_liquidity_div_by_zero_witness :
    remove_liquidity pool_lp0 1 0 0 = .error .divByZero ∧
    remove_liquidity pool_lp0 1 0 0 ≠ .error (.err .SlippageExceeded) := by
  refine ⟨?_, ?_⟩
  · exact (remove_liquidity_div_by_zero pool_lp0 1 0 0 (by decide)).1
      (by norm_num [U64, pool_lp0])
  · exact (remove_liquidity_div_by_zero pool_lp0 1 0 0 (by decide)).2.2
      .SlippageExceeded
